import Mathlib

/-!
Shallow embedding of the resilience layer of the snapweb2 repository:
retry-with-backoff executors, the client-side provider circuit breaker,
the server-side fallback model selector, the graceful-degradation chain,
the request coalescer and the fixed-window rate limiter.

Each definition mirrors one TypeScript function of the repository;
timing is made explicit (`now` parameters), `Math.random()` draws are
explicit rational arguments, and promises are modelled by explicit
state passing.
-/

deriving instance DecidableEq for Except

namespace Snapweb

/-- Model of JavaScript `String.prototype.toLowerCase` (the strings
compared by the repository are ASCII or caseless Arabic, so ASCII
lowering is exact). -/
def strToLower (s : String) : String := String.mk (s.data.map Char.toLower)

/-- Model of JavaScript `String.prototype.includes`: `strIncludes s pat`
is true when `pat` occurs as a contiguous substring of `s`. -/
def strIncludes (s pat : String) : Bool :=
  s.toList.tails.any (fun t => pat.toList.isPrefixOf t)

theorem strIncludes_append_right (a b : String) : strIncludes (a ++ b) b = true := by
  unfold strIncludes
  rw [List.any_eq_true]
  refine ⟨b.toList, ?_, ?_⟩
  · rw [List.mem_tails]
    exact ⟨a.toList, by simp [String.toList, String.data_append]⟩
  · simp [List.isPrefixOf_iff_prefix]

/-! ## RetryManager (`app/lib/utils/retryManager.ts`) and
       RetryHandler (`app/lib/.server/retry-handler.ts`)

Both classes run the same loop skeleton: attempts `1..N` where `N` is
`maxAttempts` (RetryManager) resp. `maxRetries + 1` (RetryHandler); a
failed attempt stops the loop when it was the last one or the error is
not retryable, and the failure result always reports `attempts = N`.
The shared skeleton is embedded once as `retryLoop`, parameterised by
the bound and the retryability predicate of the respective class. -/

/-- Mirrors the `RetryResult` interface of both files (`totalTime` /
`totalDelay` omitted: wall-clock only). -/
structure RetryResult (α ε : Type) where
  success : Bool
  data : Option α
  error : Option ε
  attempts : Nat
  deriving Repr, DecidableEq

/-- The retry loop of `executeWithRetry`, common to both classes.
`op i` is the outcome of the i-th invocation of the operation
(1-indexed).  `fuel` counts the attempts still allowed including the
current one, so the source's last-attempt test (`attempt ===
config.maxAttempts` resp. `attempt > maxRetries`) is `fuel = 1`.
The second component counts how many times the operation was invoked. -/
def retryLoop (maxAttempts : Nat) (retryable : ε → Bool) (op : Nat → Except ε α) :
    Nat → Nat → Option ε → RetryResult α ε × Nat
  | _, 0, lastErr => (⟨false, none, lastErr, maxAttempts⟩, 0)
  | attempt, fuel + 1, _ =>
    match op attempt with
    | .ok v => (⟨true, some v, none, attempt⟩, 1)
    | .error e =>
      if fuel = 0 ∨ retryable e = false then
        (⟨false, none, some e, maxAttempts⟩, 1)
      else
        let r := retryLoop maxAttempts retryable op (attempt + 1) fuel (some e)
        (r.1, r.2 + 1)

/-- Model of a JavaScript `Error` as consumed by `RetryManager`. -/
structure JSError where
  name : String
  message : String
  deriving Repr, DecidableEq

/-- `RetryConfig` of `retryManager.ts` (delays in ms as rationals;
the callbacks are consumed by the excluded UI layer). -/
structure RMConfig where
  maxAttempts : Nat
  baseDelay : ℚ
  maxDelay : ℚ
  backoffMultiplier : ℚ
  retryableErrors : List String

/-- `DEFAULT_RETRY_CONFIG` of `retryManager.ts`. -/
def rmDefaultConfig : RMConfig :=
  ⟨3, 1000, 10000, 2,
   ["NETWORK_ERROR", "TIMEOUT", "RATE_LIMITED", "SERVER_ERROR",
    "SERVICE_UNAVAILABLE", "TEMPORARY_FAILURE"]⟩

/-- The `retryablePatterns` literal inside `RetryManager.isRetryableError`. -/
def rmRetryablePatterns : List String :=
  ["network", "timeout", "rate limit", "server error", "service unavailable",
   "temporary", "connection", "fetch", "abort"]

/-- `RetryManager.isRetryableError`. -/
def rmIsRetryableError (cfg : RMConfig) (e : JSError) : Bool :=
  let errorMessage := strToLower e.message
  let errorName := strToLower e.name
  cfg.retryableErrors.any (fun r =>
      strIncludes errorMessage (strToLower r) || strIncludes errorName (strToLower r))
    || rmRetryablePatterns.any (fun p =>
      strIncludes errorMessage p || strIncludes errorName p)

/-- `RetryManager.calculateDelay`: `rand ∈ [0,1)` models the
`Math.random()` draw.  The jitter is added to the raw exponential
delay and the sum is capped at `maxDelay`. -/
def rmCalculateDelay (cfg : RMConfig) (attempt : Nat) (rand : ℚ) : ℚ :=
  let delay := cfg.baseDelay * cfg.backoffMultiplier ^ (attempt - 1)
  let jitter := rand * (1 / 10) * delay
  min (delay + jitter) cfg.maxDelay

/-- `RetryManager.executeWithRetry` (result and invocation count). -/
def rmExecuteWithRetry (cfg : RMConfig) (op : Nat → Except JSError α) :
    RetryResult α JSError × Nat :=
  retryLoop cfg.maxAttempts (rmIsRetryableError cfg) op 1 cfg.maxAttempts none

/-- Error shape consumed by `RetryHandler._isRetryableError`:
`statusCode` and `message` fields of the thrown value, and
`responseStatus = some s` when the thrown value is a fetch `Response`
with status `s`. -/
structure RHError where
  statusCode : Option Nat
  message : Option String
  responseStatus : Option Nat
  deriving Repr, DecidableEq

/-- `RetryConfig` of `retry-handler.ts`. -/
structure RHConfig where
  maxRetries : Nat
  baseDelay : ℚ
  maxDelay : ℚ
  backoffMultiplier : ℚ
  retryableStatusCodes : List Nat
  retryableErrorMessages : List String

/-- The defaults built in the `RetryHandler` constructor
(`defaultRetryHandler`). -/
def rhDefaultConfig : RHConfig :=
  ⟨3, 1000, 30000, 2, [429, 502, 503, 504],
   ["too many requests", "rate limit", "service unavailable",
    "gateway timeout", "bad gateway"]⟩

/-- The `rateLimitRetryHandler` configuration of `retry-handler.ts`. -/
def rateLimitRetryHandlerConfig : RHConfig :=
  ⟨4, 5000, 120000, 5 / 2, [429, 502, 503, 504],
   ["too many requests", "rate limit", "temporarily rate-limited upstream",
    "rate-limited", "quota exceeded"]⟩

/-- The final `error instanceof Response` branch of
`RetryHandler._isRetryableError`. -/
def rhResponseCheck (cfg : RHConfig) (e : RHError) : Bool :=
  match e.responseStatus with
  | some s => cfg.retryableStatusCodes.contains s
  | none => false

/-- `RetryHandler._isRetryableError`.  `error.statusCode &&` and
`if (error.message)` are JavaScript truthiness tests, so a status code
of 0 and an empty message fall through. -/
def rhIsRetryableError (cfg : RHConfig) (e : RHError) : Bool :=
  if (match e.statusCode with
      | some s => decide (s ≠ 0) && cfg.retryableStatusCodes.contains s
      | none => false) then
    true
  else
    match e.message with
    | some m =>
      if m = "" then rhResponseCheck cfg e
      else cfg.retryableErrorMessages.any (fun rm => strIncludes (strToLower m) rm)
    | none => rhResponseCheck cfg e

/-- `RetryHandler._calculateDelay`: the raw exponential delay is capped
at `maxDelay` first and the jitter factor `0.5 + Math.random()` is
applied afterwards, then the product is floored. -/
def rhCalculateDelay (cfg : RHConfig) (attempt : Nat) (rand : ℚ) : ℤ :=
  let delay := cfg.baseDelay * cfg.backoffMultiplier ^ (attempt - 1)
  let cappedDelay := min delay cfg.maxDelay
  let jitter := 1 / 2 + rand
  ⌊cappedDelay * jitter⌋

/-- `RetryHandler.executeWithRetry`: attempts `1 .. maxRetries + 1`. -/
def rhExecuteWithRetry (cfg : RHConfig) (op : Nat → Except RHError α) :
    RetryResult α RHError × Nat :=
  retryLoop (cfg.maxRetries + 1) (rhIsRetryableError cfg) op 1 (cfg.maxRetries + 1) none

/-! ## FallbackManager (`app/lib/utils/fallbackManager.ts`) -/

/-- `FallbackManager.isRetryableError`.  `status` models the
JavaScript variable `error?.response?.status || error?.statusCode`
(`none` when both fields are absent); `!status` is its truthiness
test, so `some 0` also counts as no status.  `message` models
`error?.message || ''` before lowering. -/
def fmIsRetryableError (status : Option Nat) (message : String) : Bool :=
  let msg := strToLower message
  if status == some 401 || strIncludes msg "api key" || strIncludes msg "unauthorized" then
    false
  else if strIncludes msg "quota" && !strIncludes msg "rate limit" then
    false
  else
    (match status with | none => true | some s => decide (s = 0))
      || (match status with | some s => decide (500 ≤ s) | none => false)
      || status == some 429
      || strIncludes msg "timeout"
      || strIncludes msg "network"
      || strIncludes msg "connection"

/-- One provider record of `fallbackManager.ts` (`FallbackProvider`);
times are milliseconds since the epoch. -/
structure FMProvider where
  name : String
  priority : Nat
  isAvailable : Bool
  lastFailure : Option ℤ
  failureCount : Nat
  maxFailures : Nat
  deriving Repr, DecidableEq

/-- The initial record `initializeProviders` installs for each default
provider. -/
def freshProvider (name : String) (priority : Nat) : FMProvider :=
  ⟨name, priority, true, none, 0, 3⟩

/-- `FallbackManager.recordProviderFailure` restricted to the record of
the failing provider: increment the count, stamp the failure time, and
disable the provider once the count reaches `maxFailures`. -/
def recordProviderFailure (p : FMProvider) (now : ℤ) : FMProvider :=
  let p1 : FMProvider :=
    { p with failureCount := p.failureCount + 1, lastFailure := some now }
  if p1.maxFailures ≤ p1.failureCount then { p1 with isAvailable := false } else p1

/-- A sequence of recorded failures at the given times (earliest
first). -/
def recordFailures (p : FMProvider) (times : List ℤ) : FMProvider :=
  times.foldl recordProviderFailure p

/-- The circuit-breaker refresh that `getAvailableProviders` applies to
every provider record at query time: an unavailable provider whose last
failure is older than `circuitBreakerTimeout` becomes available again
with its failure count reset to zero. -/
def circuitBreakerRefresh (cbTimeout now : ℤ) (p : FMProvider) : FMProvider :=
  if p.isAvailable then p
  else
    match p.lastFailure with
    | some t => if cbTimeout < now - t then { p with isAvailable := true, failureCount := 0 } else p
    | none => p

/-- `FallbackManager.resetProviderFailures` (invoked on a successful
attempt). -/
def resetProviderFailures (p : FMProvider) : FMProvider :=
  { p with failureCount := 0, isAvailable := true, lastFailure := none }

/-- The per-provider entry of `FallbackManager.getProviderStatus`
(a plain read of the record). -/
def getProviderStatusEntry (p : FMProvider) : Bool × Nat × Option ℤ :=
  (p.isAvailable, p.failureCount, p.lastFailure)

/-! ## Server-side fallback model selector (`fallback-manager.ts`) -/

/-- One entry of the `FALLBACK_MODELS` literal. -/
structure FallbackModel where
  model : String
  provider : String
  priority : Nat
  deriving Repr, DecidableEq

/-- The `FALLBACK_MODELS` literal, in source order. -/
def FALLBACK_MODELS : List FallbackModel :=
  [⟨"claude-3-5-sonnet-latest", "Anthropic", 1⟩,
   ⟨"anthropic/claude-3.5-sonnet", "OpenRouter", 2⟩,
   ⟨"anthropic/claude-3-haiku", "OpenRouter", 3⟩,
   ⟨"google/gemini-flash-1.5", "OpenRouter", 4⟩,
   ⟨"deepseek/deepseek-coder", "OpenRouter", 5⟩,
   ⟨"mistralai/mistral-nemo", "OpenRouter", 6⟩,
   ⟨"cohere/command", "OpenRouter", 7⟩,
   ⟨"llama3.2:latest", "Ollama", 8⟩,
   ⟨"qwen2.5:latest", "Ollama", 9⟩,
   ⟨"mistral:latest", "Ollama", 10⟩,
   ⟨"codellama:latest", "Ollama", 11⟩,
   ⟨"local-model", "LMStudio", 12⟩,
   ⟨"gpt-4o-mini", "OpenAI", 13⟩,
   ⟨"gpt-3.5-turbo", "OpenAI", 14⟩]

/-- The candidate list built at the top of `getNextFallbackModel`:
filter out the failed (model, provider) pair and sort ascending by
priority (`Array.prototype.sort` with comparator `a.priority -
b.priority`, modelled by insertion sort). -/
def availableFallbacks (failedModel failedProvider : String) : List FallbackModel :=
  (FALLBACK_MODELS.filter
      (fun fb => !(fb.model == failedModel && fb.provider == failedProvider))).insertionSort
    (fun a b => a.priority ≤ b.priority)

/-- `await this._isProviderHealthy(provider, …)` viewed from one call:
the per-call health verdict for a provider name, `Except.error` when
the check throws (caught by the loop's `try/catch`). -/
def providerHealthOk (health : String → Except Unit Bool) (name : String) : Bool :=
  match health name with
  | .ok true => true
  | _ => false

/-- The three checks the loop body applies to a candidate: the provider
exists in `PROVIDER_LIST`, its health check passes, and the model is in
the provider's static or dynamic listing (`_isModelAvailable`, which
catches its own exceptions and returns a boolean). -/
def fallbackViable (providerList : List String) (health : String → Except Unit Bool)
    (modelAvail : String → String → Bool) (fb : FallbackModel) : Bool :=
  providerList.contains fb.provider && providerHealthOk health fb.provider &&
    modelAvail fb.model fb.provider

/-- The `for (const fallback of availableFallbacks)` loop: return the
first viable candidate, else fall through. -/
def selectFallback (providerList : List String) (health : String → Except Unit Bool)
    (modelAvail : String → String → Bool) : List FallbackModel → Option (String × String)
  | [] => none
  | fb :: rest =>
    if fallbackViable providerList health modelAvail fb then some (fb.model, fb.provider)
    else selectFallback providerList health modelAvail rest

/-- `FallbackManager.getNextFallbackModel`: the loop above, then the
designated default (model, provider) pair if and only if the default
provider passes the health check (an exception there also yields
`null`). -/
def getNextFallbackModel (providerList : List String) (health : String → Except Unit Bool)
    (modelAvail : String → String → Bool) (defaultModel defaultProvider : String)
    (failedModel failedProvider : String) : Option (String × String) :=
  match selectFallback providerList health modelAvail
      (availableFallbacks failedModel failedProvider) with
  | some r => some r
  | none =>
    if providerHealthOk health defaultProvider then some (defaultModel, defaultProvider)
    else none

/-- The `PROVIDER_LIST` names referenced by `FALLBACK_MODELS` (the
actual list is external configuration; theorems quantify over it and
witnesses use this instance). -/
def allProvidersList : List String :=
  ["Anthropic", "OpenRouter", "Ollama", "LMStudio", "OpenAI"]

/-! ## GracefulDegradationManager (`gracefulDegradation.ts` source file,
`src/unnamed/part_003`) -/

/-- A JavaScript value, with enough structure to express the
truthiness tests the degradation chain performs. -/
inductive JSVal where
  | num (n : ℤ)
  | str (s : String)
  | boolean (b : Bool)
  | null
  | undef
  | errObj (message : String)
  | obj (id : Nat)
  deriving Repr, DecidableEq

/-- JavaScript truthiness (`NaN` and document objects aside, exact). -/
def JSVal.truthy : JSVal → Bool
  | .num n => decide (n ≠ 0)
  | .str s => decide (s ≠ "")
  | .boolean b => b
  | .null => false
  | .undef => false
  | .errObj _ => true
  | .obj _ => true

/-- `error instanceof Error ? error.message : String(error)`. -/
def JSVal.asMessage : JSVal → String
  | .num n => toString n
  | .str s => s
  | .boolean b => if b then "true" else "false"
  | .null => "null"
  | .undef => "undefined"
  | .errObj m => m
  | .obj _ => "[object Object]"

/-- One entry of the `GracefulDegradationManager` cache map. -/
structure CacheEntry where
  data : JSVal
  timestamp : ℤ
  ttl : ℤ
  deriving Repr, DecidableEq

/-- `Map.delete` on an association list keyed by strings (map keys are
unique, so removing every binding of the key is `Map.delete`). -/
def mapDelete (m : List (String × β)) (k : String) : List (String × β) :=
  m.filter (fun kv => !(kv.1 == k))

/-- `Map.set` on an association list keyed by strings. -/
def mapSet (m : List (String × β)) (k : String) (v : β) : List (String × β) :=
  (k, v) :: mapDelete m k

/-- `GracefulDegradationManager.getCache`: `null` on a missing key; a
lazily expired entry (`now - timestamp > ttl`) is deleted and `null`
returned; otherwise the stored data.  Returns the verdict and the
possibly pruned cache map. -/
def getCache (cache : List (String × CacheEntry)) (now : ℤ) (key : String) :
    Option JSVal × List (String × CacheEntry) :=
  match cache.lookup key with
  | none => (none, cache)
  | some e =>
    if e.ttl < now - e.timestamp then (none, mapDelete cache key)
    else (some e.data, cache)

/-- `GracefulDegradationManager.setCache` (default ttl 300000 ms is
applied by the caller model). -/
def setCache (cache : List (String × CacheEntry)) (now : ℤ) (key : String) (data : JSVal)
    (ttl : ℤ) : List (String × CacheEntry) :=
  mapSet cache key ⟨data, now, ttl⟩

/-- The `fallbackOptions` argument of `executeWithDegradation` /
`handleFallback`.  The fallback operation is modelled by its outcome
(`none` when no operation is provided); `offlineMessage` only feeds a
toast and is omitted. -/
structure FallbackOptions where
  fallbackOperation : Option (Except JSVal JSVal)
  cachedResult : Option JSVal
  useCache : Bool
  cacheKey : Option String
  cacheTTL : Option ℤ
  deriving Repr, DecidableEq

/-- Truthiness of the optional `cacheKey` string (an empty key is
falsy, so `useCache && cacheKey` skips the cache). -/
def cacheKeyTruthy : Option String → Bool
  | some k => decide (k ≠ "")
  | none => false

/-- `fallbackOptions.cacheTTL || 300000` (a zero ttl is falsy). -/
def ttlOrDefault : Option ℤ → ℤ
  | some t => if t = 0 then 300000 else t
  | none => 300000

/-- The cache consultation at the top of `handleFallback`: performed
only under `useCache && cacheKey`, and its result is used through the
truthiness test `if (cached)`. -/
def cacheHitVal (cache : List (String × CacheEntry)) (now : ℤ) (opts : FallbackOptions) :
    Option JSVal :=
  if opts.useCache && cacheKeyTruthy opts.cacheKey then
    match opts.cacheKey with
    | some k => (getCache cache now k).1
    | none => none
  else none

/-- `GracefulDegradationManager.handleFallback`: the degradation chain.
Returns the outcome (`Except.error` models `throw`) and whether the
fallback operation was invoked. -/
def handleFallback (serviceName : String) (cache : List (String × CacheEntry)) (now : ℤ)
    (opts : FallbackOptions) (originalError : Option JSVal) : Except JSVal JSVal × Bool :=
  let synthesized : JSVal := .errObj ("Service " ++ serviceName ++ " is unavailable")
  let throwFinal : Except JSVal JSVal :=
    match originalError with
    | some e => if e.truthy then .error e else .error synthesized
    | none => .error synthesized
  let afterFallbackOp : Except JSVal JSVal :=
    match opts.cachedResult with
    | some v => if v == JSVal.undef then throwFinal else .ok v
    | none => throwFinal
  let tail : Except JSVal JSVal × Bool :=
    match opts.fallbackOperation with
    | some (.ok v) => (.ok v, true)
    | some (.error _) => (afterFallbackOp, true)
    | none => (afterFallbackOp, false)
  match cacheHitVal cache now opts with
  | some v => if v.truthy then (.ok v, false) else tail
  | none => tail

/-- The per-service record of the degradation manager. -/
structure ServiceStatus where
  name : String
  isAvailable : Bool
  lastChecked : ℤ
  error : Option String
  deriving Repr, DecidableEq

/-- `GracefulDegradationManager.isServiceAvailable`
(`service?.isAvailable ?? false`). -/
def isServiceAvailable (services : List (String × ServiceStatus)) (name : String) : Bool :=
  match services.lookup name with
  | some st => st.isAvailable
  | none => false

/-- Outcome of one `executeWithDegradation` call. -/
structure DegradationOutcome where
  result : Except JSVal JSVal
  fallbackInvoked : Bool
  cache : List (String × CacheEntry)
  services : List (String × ServiceStatus)
  deriving Repr, DecidableEq

/-- `GracefulDegradationManager.executeWithDegradation`: try the
primary operation when the service is reported available (writing the
result to the cache when requested), record the failure and walk the
fallback chain otherwise; an unavailable service skips straight to the
chain. -/
def executeWithDegradation (serviceName : String) (services : List (String × ServiceStatus))
    (cache : List (String × CacheEntry)) (now : ℤ) (primary : Except JSVal JSVal)
    (opts : FallbackOptions) : DegradationOutcome :=
  if isServiceAvailable services serviceName then
    match primary with
    | .ok v =>
      let cache1 :=
        if opts.useCache && cacheKeyTruthy opts.cacheKey then
          match opts.cacheKey with
          | some k => setCache cache now k v (ttlOrDefault opts.cacheTTL)
          | none => cache
        else cache
      ⟨.ok v, false, cache1, services⟩
    | .error e =>
      let services1 :=
        mapSet services serviceName ⟨serviceName, false, now, some e.asMessage⟩
      let r := handleFallback serviceName cache now opts (some e)
      ⟨r.1, r.2, cache, services1⟩
  else
    let r := handleFallback serviceName cache now opts none
    ⟨r.1, r.2, cache, services⟩

/-! ## Terminal failure messages (`fallbackManager.ts`,
`errorHandler.ts`, `stream-text.ts`) -/

/-- An error as consumed by `ErrorHandler.parseError`: an HTTP error
carrying a response (with optional `data.message`), a plain error with
an optional `message`, or a thrown string. -/
inductive ApiError where
  | respErr (dataMessage : Option String) (message : Option String)
  | plainErr (message : Option String)
  | strErr (s : String)
  deriving Repr, DecidableEq

/-- The initial `details.message` of `parseError`. -/
def defaultParsedMessage : String := "حدث خطأ غير متوقع"

/-- JavaScript `o || d` for an optional string (empty string is
falsy). -/
def strOrElse (o : Option String) (d : String) : String :=
  match o with
  | some s => if s = "" then d else s
  | none => d

/-- The `message` field produced by `ErrorHandler.parseError`
(`none` models a call with `undefined`, e.g. when no provider was ever
attempted). -/
def parseErrorMessage : Option ApiError → String
  | none => defaultParsedMessage
  | some (.respErr dm m) => strOrElse dm (strOrElse m defaultParsedMessage)
  | some (.plainErr m) => strOrElse m defaultParsedMessage
  | some (.strErr s) => s

/-- The terminal error message thrown by
`executeWithFallbackInternal` when every provider failed
(`fallbackManager.ts:152`), built on `errorHandler.handleApiError`. -/
def allProvidersFailedMessage (lastError : Option ApiError) : String :=
  "فشل في جميع المزودين المتاحين. آخر خطأ: " ++ parseErrorMessage lastError

/-- The message thrown before the loop when no provider is
available. -/
def noProvidersMessage : String := "لا توجد مزودين متاحين حالياً. يرجى المحاولة لاحقاً."

/-- The provider loop of `executeWithFallbackInternal`: iterate the
available providers, stop early after `maxRetries` failed attempts,
return the first success, and otherwise throw the terminal message.
The retryability check and the delay only affect logging and sleeping,
not which provider is tried next.  Second component: number of
operation invocations. -/
def executeWithFallbackLoop (maxRetries : Nat) (op : String → Except ApiError α) :
    List FMProvider → Nat → Option ApiError → Except String α × Nat
  | [], _, lastErr => (.error (allProvidersFailedMessage lastErr), 0)
  | p :: rest, attemptCount, lastErr =>
    if maxRetries ≤ attemptCount then (.error (allProvidersFailedMessage lastErr), 0)
    else
      match op p.name with
      | .ok v => (.ok v, 1)
      | .error e =>
        let r := executeWithFallbackLoop maxRetries op rest (attemptCount + 1) (some e)
        (r.1, r.2 + 1)

/-- `FallbackManager.executeWithFallbackInternal` (result and
invocation count). -/
def executeWithFallbackInternal (maxRetries : Nat) (op : String → Except ApiError α)
    (availableProviders : List FMProvider) : Except String α × Nat :=
  if availableProviders.isEmpty then (.error noProvidersMessage, 0)
  else executeWithFallbackLoop maxRetries op availableProviders 0 none

/-- The two terminal error messages thrown by `streamText` once
`fallbackCount >= maxFallbackAttempts` (`stream-text.ts`), chosen by
whether the last error looks temporary. -/
def streamTextTerminalMessage (isTemporary : Bool) (errorMessage : String) : String :=
  if isTemporary then
    "⚠️ جميع المزودين غير متاحين مؤقتاً. يرجى المحاولة مرة أخرى لاحقاً. آخر خطأ: " ++
      errorMessage
  else
    "⚠️ فشل في الاتصال بجميع المزودين المتاحين. يرجى التحقق من اتصال الإنترنت والمحاولة مرة أخرى. آخر خطأ: " ++
      errorMessage

/-! ## RequestCoalescer (`FallbackManager.executeWithFallback`,
`fallbackManager.ts:68-90`) -/

/-- The `activeRequests` map plus a supply of fresh promise
identities. -/
structure CoalescerState where
  activeRequests : List (String × Nat)
  nextPromiseId : Nat
  deriving Repr, DecidableEq

/-- The coalescing wrapper of `executeWithFallback`: with a context key
whose request is in flight, hand the registered promise back without
starting the operation; otherwise start the operation (third component
`true`), registering its promise under the key when one is given. -/
def coalesce (st : CoalescerState) (context : Option String) :
    Nat × CoalescerState × Bool :=
  match context with
  | some k =>
    match st.activeRequests.lookup k with
    | some p => (p, st, false)
    | none =>
      (st.nextPromiseId,
       ⟨(k, st.nextPromiseId) :: st.activeRequests, st.nextPromiseId + 1⟩, true)
  | none => (st.nextPromiseId, ⟨st.activeRequests, st.nextPromiseId + 1⟩, true)

/-- The `promise.finally` handler: remove the registration once the
operation settles; the outcome (success or failure) is not consulted. -/
def settleRequest (st : CoalescerState) (k : String) (_outcome : Except JSVal JSVal) :
    CoalescerState :=
  ⟨mapDelete st.activeRequests k, st.nextPromiseId⟩

/-! ## RateLimiter (`app/lib/.server/rate-limiter.ts`) -/

/-- One window of the rate limiter store. -/
structure RateLimitEntry where
  count : Nat
  resetTime : ℤ
  deriving Repr, DecidableEq

/-- `RateLimitConfig` (the key generator is external policy). -/
structure RateLimitConfig where
  windowMs : ℤ
  maxRequests : Nat

/-- The verdict returned by `checkLimit`; `remaining` is an integer
because the new-window branch computes `maxRequests - 1` unclamped. -/
structure RateLimitVerdict where
  allowed : Bool
  resetTime : ℤ
  remaining : ℤ
  deriving Repr, DecidableEq

/-- `RateLimiter.checkLimit` for a derived key: start a fresh window
(count 1) when the key is unknown or its window has expired, otherwise
increment the count; allowed iff the count stays within
`maxRequests`. -/
def checkLimit (cfg : RateLimitConfig) (store : List (String × RateLimitEntry))
    (key : String) (now : ℤ) : RateLimitVerdict × List (String × RateLimitEntry) :=
  let resetTime := now + cfg.windowMs
  match store.lookup key with
  | none =>
    (⟨true, resetTime, (cfg.maxRequests : ℤ) - 1⟩, mapSet store key ⟨1, resetTime⟩)
  | some entry =>
    if entry.resetTime ≤ now then
      (⟨true, resetTime, (cfg.maxRequests : ℤ) - 1⟩, mapSet store key ⟨1, resetTime⟩)
    else
      (⟨decide (entry.count + 1 ≤ cfg.maxRequests), entry.resetTime,
        max 0 ((cfg.maxRequests : ℤ) - (entry.count + 1))⟩,
       mapSet store key ⟨entry.count + 1, entry.resetTime⟩)

/-- The claim's configuration: `maxRequests = 5`, `windowMs = 60000`. -/
def rl5cfg : RateLimitConfig := ⟨60000, 5⟩

/-- Witness operation: always fails with a retryable network error
(`RetryManager` classification). -/
def alwaysNetworkErrorOp : Nat → Except JSError Nat :=
  fun _ => .error ⟨"NETWORK_ERROR", "network down"⟩

/-- Witness operation: always fails with HTTP 429 (retryable for
`RetryHandler`). -/
def alwaysRateLimitedOp : Nat → Except RHError Nat :=
  fun _ => .error ⟨some 429, some "too many requests", none⟩

/-- Witness operation: fails with a non-retryable authentication error
(`RetryManager` classification). -/
def authErrorOp : Nat → Except JSError Nat :=
  fun _ => .error ⟨"Error", "invalid api key"⟩

/-- Witness operation: fails with a non-retryable 401 error
(`RetryHandler` classification). -/
def unauthorizedOp : Nat → Except RHError Nat :=
  fun _ => .error ⟨some 401, some "unauthorized", none⟩

/-! ### Retry loop lemmas -/

theorem retryLoop_allFail (maxAttempts : Nat) (retryable : ε → Bool)
    (op : Nat → Except ε α)
    (hfail : ∀ i, ∃ e, op i = .error e ∧ retryable e = true) :
    ∀ fuel attempt lastErr,
      (retryLoop maxAttempts retryable op attempt fuel lastErr).1.success = false ∧
      (retryLoop maxAttempts retryable op attempt fuel lastErr).1.attempts = maxAttempts ∧
      (retryLoop maxAttempts retryable op attempt fuel lastErr).2 = fuel := by
  intro fuel
  induction fuel with
  | zero => intro attempt lastErr; exact ⟨rfl, rfl, rfl⟩
  | succ n ih =>
    intro attempt lastErr
    obtain ⟨e, hop, hret⟩ := hfail attempt
    rcases Nat.eq_zero_or_pos n with hn | hn
    · subst hn
      simp [retryLoop, hop, hret]
    · have hne : ¬(n = 0 ∨ retryable e = false) := by
        simp [hret]; omega
      simp only [retryLoop, hop, if_neg hne]
      obtain ⟨h1, h2, h3⟩ := ih (attempt + 1) (some e)
      exact ⟨h1, h2, by simp [h3]⟩

theorem retryLoop_failure_attempts (maxAttempts : Nat) (retryable : ε → Bool)
    (op : Nat → Except ε α) :
    ∀ fuel attempt lastErr,
      (retryLoop maxAttempts retryable op attempt fuel lastErr).1.success = false →
      (retryLoop maxAttempts retryable op attempt fuel lastErr).1.attempts = maxAttempts := by
  intro fuel
  induction fuel with
  | zero => intro attempt lastErr _; rfl
  | succ n ih =>
    intro attempt lastErr h
    simp only [retryLoop] at h ⊢
    cases hop : op attempt with
    | ok v => simp [hop] at h
    | error e =>
      simp only [hop] at h ⊢
      by_cases hc : n = 0 ∨ retryable e = false
      · simp only [if_pos hc]
      · simp only [if_neg hc] at h ⊢
        exact ih (attempt + 1) (some e) h

theorem retryLoop_nonretryable_stops (maxAttempts : Nat) (retryable : ε → Bool)
    (op : Nat → Except ε α) (attempt fuel : Nat) (lastErr : Option ε) (e : ε)
    (hop : op attempt = .error e) (hret : retryable e = false) (hfuel : 1 ≤ fuel) :
    retryLoop maxAttempts retryable op attempt fuel lastErr =
      (⟨false, none, some e, maxAttempts⟩, 1) := by
  cases fuel with
  | zero => omega
  | succ n => simp [retryLoop, hop, hret]

/-- C2: for a policy with `maxAttempts = N` (`RetryManager`) resp.
`maxRetries + 1 = N` (`RetryHandler`) and an operation failing every
invocation with a retryable error, `executeWithRetry` invokes the
operation exactly `N` times and returns a failure whose `attempts`
field equals `N`. -/
theorem retry_exhaustion_attempts (cfgRM : RMConfig) (cfgRH : RHConfig)
    (opRM : Nat → Except JSError α) (opRH : Nat → Except RHError β)
    (hRM : ∀ i, ∃ e, opRM i = .error e ∧ rmIsRetryableError cfgRM e = true)
    (hRH : ∀ i, ∃ e, opRH i = .error e ∧ rhIsRetryableError cfgRH e = true) :
    ((rmExecuteWithRetry cfgRM opRM).1.success = false ∧
     (rmExecuteWithRetry cfgRM opRM).1.attempts = cfgRM.maxAttempts ∧
     (rmExecuteWithRetry cfgRM opRM).2 = cfgRM.maxAttempts) ∧
    ((rhExecuteWithRetry cfgRH opRH).1.success = false ∧
     (rhExecuteWithRetry cfgRH opRH).1.attempts = cfgRH.maxRetries + 1 ∧
     (rhExecuteWithRetry cfgRH opRH).2 = cfgRH.maxRetries + 1) := by
  exact ⟨retryLoop_allFail cfgRM.maxAttempts (rmIsRetryableError cfgRM) opRM hRM
          cfgRM.maxAttempts 1 none,
        retryLoop_allFail (cfgRH.maxRetries + 1) (rhIsRetryableError cfgRH) opRH hRH
          (cfgRH.maxRetries + 1) 1 none⟩

/-- Witness for C2 at the default configurations: 3 attempts for
`RetryManager`, 4 (= maxRetries + 1) for `RetryHandler`. -/
theorem retry_exhaustion_attempts_witness :
    (rmExecuteWithRetry rmDefaultConfig alwaysNetworkErrorOp).1.success = false ∧
    (rmExecuteWithRetry rmDefaultConfig alwaysNetworkErrorOp).1.attempts = 3 ∧
    (rmExecuteWithRetry rmDefaultConfig alwaysNetworkErrorOp).2 = 3 ∧
    (rhExecuteWithRetry rhDefaultConfig alwaysRateLimitedOp).1.attempts = 4 ∧
    (rhExecuteWithRetry rhDefaultConfig alwaysRateLimitedOp).2 = 4 := by
  have h := retry_exhaustion_attempts rmDefaultConfig rhDefaultConfig
    alwaysNetworkErrorOp alwaysRateLimitedOp
    (fun _ => ⟨⟨"NETWORK_ERROR", "network down"⟩, rfl, by decide⟩)
    (fun _ => ⟨⟨some 429, some "too many requests", none⟩, rfl, by decide⟩)
  exact ⟨h.1.1, h.1.2.1, h.1.2.2, h.2.2.1, h.2.2.2⟩

/-- C10 (implicit): whenever `executeWithRetry` returns a failure
result, its `attempts` field equals the configured maximum
(`maxAttempts` in `RetryManager`, `maxRetries + 1` in `RetryHandler`)
regardless of how many invocations were performed; in particular a
non-retryable error on the first attempt stops the loop after one
invocation yet the reported `attempts` is still the configured
maximum. -/
theorem failure_reports_configured_max (cfgRM : RMConfig) (cfgRH : RHConfig)
    (opRM : Nat → Except JSError α) (opRH : Nat → Except RHError β) :
    ((rmExecuteWithRetry cfgRM opRM).1.success = false →
      (rmExecuteWithRetry cfgRM opRM).1.attempts = cfgRM.maxAttempts) ∧
    ((rhExecuteWithRetry cfgRH opRH).1.success = false →
      (rhExecuteWithRetry cfgRH opRH).1.attempts = cfgRH.maxRetries + 1) ∧
    (∀ e, opRM 1 = .error e → rmIsRetryableError cfgRM e = false →
      1 ≤ cfgRM.maxAttempts →
      (rmExecuteWithRetry cfgRM opRM).2 = 1 ∧
      (rmExecuteWithRetry cfgRM opRM).1.attempts = cfgRM.maxAttempts) ∧
    (∀ e, opRH 1 = .error e → rhIsRetryableError cfgRH e = false →
      (rhExecuteWithRetry cfgRH opRH).2 = 1 ∧
      (rhExecuteWithRetry cfgRH opRH).1.attempts = cfgRH.maxRetries + 1) := by
  refine ⟨?_, ?_, ?_, ?_⟩
  · exact retryLoop_failure_attempts cfgRM.maxAttempts (rmIsRetryableError cfgRM) opRM
      cfgRM.maxAttempts 1 none
  · exact retryLoop_failure_attempts (cfgRH.maxRetries + 1) (rhIsRetryableError cfgRH) opRH
      (cfgRH.maxRetries + 1) 1 none
  · intro e hop hret hmax
    have h := retryLoop_nonretryable_stops cfgRM.maxAttempts (rmIsRetryableError cfgRM)
      opRM 1 cfgRM.maxAttempts none e hop hret hmax
    unfold rmExecuteWithRetry
    rw [h]
    exact ⟨rfl, rfl⟩
  · intro e hop hret
    have h := retryLoop_nonretryable_stops (cfgRH.maxRetries + 1) (rhIsRetryableError cfgRH)
      opRH 1 (cfgRH.maxRetries + 1) none e hop hret (by omega)
    unfold rhExecuteWithRetry
    rw [h]
    exact ⟨rfl, rfl⟩

/-- Witness for C10: a non-retryable auth error on attempt 1 under the
default configurations gives one invocation but reported attempts 3
resp. 4. -/
theorem failure_reports_configured_max_witness :
    (rmExecuteWithRetry rmDefaultConfig authErrorOp).2 = 1 ∧
    (rmExecuteWithRetry rmDefaultConfig authErrorOp).1.attempts = 3 ∧
    (rhExecuteWithRetry rhDefaultConfig unauthorizedOp).2 = 1 ∧
    (rhExecuteWithRetry rhDefaultConfig unauthorizedOp).1.attempts = 4 := by
  have h := failure_reports_configured_max rmDefaultConfig rhDefaultConfig
    authErrorOp unauthorizedOp
  have h3 := h.2.2.1 ⟨"Error", "invalid api key"⟩ rfl (by decide) (by decide)
  have h4 := h.2.2.2 ⟨some 401, some "unauthorized", none⟩ rfl (by decide)
  exact ⟨h3.1, h3.2, h4.1, h4.2⟩

/-- C3 (amended): `RetryManager.calculateDelay` applies the jitter
factor `1 + 0.1·rand ∈ [1, 1.1]` to the raw exponential delay before
capping, so the slept delay never exceeds `maxDelay`;
`RetryHandler._calculateDelay` caps first and applies the jitter factor
`0.5 + rand ∈ [0.5, 1.5]` afterwards, so its result is bounded only by
`1.5 × maxDelay`. -/
theorem calculate_delay_spec (cfgRM : RMConfig) (cfgRH : RHConfig) (attempt : Nat)
    (rand : ℚ) (h0 : 0 ≤ rand) (h1 : rand < 1) :
    rmCalculateDelay cfgRM attempt rand ≤ cfgRM.maxDelay ∧
    rmCalculateDelay cfgRM attempt rand =
      min (cfgRM.baseDelay * cfgRM.backoffMultiplier ^ (attempt - 1) * (1 + rand * (1 / 10)))
        cfgRM.maxDelay ∧
    1 ≤ 1 + rand * (1 / 10) ∧ 1 + rand * (1 / 10) ≤ 11 / 10 ∧
    rhCalculateDelay cfgRH attempt rand =
      ⌊min (cfgRH.baseDelay * cfgRH.backoffMultiplier ^ (attempt - 1)) cfgRH.maxDelay *
        (1 / 2 + rand)⌋ ∧
    (0 ≤ cfgRH.baseDelay → 0 ≤ cfgRH.backoffMultiplier → 0 ≤ cfgRH.maxDelay →
      (rhCalculateDelay cfgRH attempt rand : ℚ) ≤ 3 / 2 * cfgRH.maxDelay) := by
  refine ⟨min_le_right _ _, ?_, by linarith, by linarith, rfl, ?_⟩
  · unfold rmCalculateDelay
    ring_nf
  · intro hb hm hd
    set raw := cfgRH.baseDelay * cfgRH.backoffMultiplier ^ (attempt - 1) with hraw
    have hrawnn : 0 ≤ raw := mul_nonneg hb (pow_nonneg hm _)
    have hcapnn : 0 ≤ min raw cfgRH.maxDelay := le_min hrawnn hd
    have hcaple : min raw cfgRH.maxDelay ≤ cfgRH.maxDelay := min_le_right _ _
    have hjit : 1 / 2 + rand ≤ 3 / 2 := by linarith
    have hjitnn : (0 : ℚ) ≤ 1 / 2 + rand := by linarith
    have hle : min raw cfgRH.maxDelay * (1 / 2 + rand) ≤ cfgRH.maxDelay * (3 / 2) :=
      mul_le_mul hcaple hjit hjitnn hd
    calc (rhCalculateDelay cfgRH attempt rand : ℚ)
        ≤ min raw cfgRH.maxDelay * (1 / 2 + rand) := Int.floor_le _
      _ ≤ cfgRH.maxDelay * (3 / 2) := hle
      _ = 3 / 2 * cfgRH.maxDelay := by ring

/-- Witness for C3 at the default configurations, attempt 2,
`rand = 1/2`. -/
theorem calculate_delay_spec_witness :
    rmCalculateDelay rmDefaultConfig 2 (1 / 2) ≤ rmDefaultConfig.maxDelay ∧
    (rhCalculateDelay rhDefaultConfig 2 (1 / 2) : ℚ) ≤ 3 / 2 * rhDefaultConfig.maxDelay := by
  have h := calculate_delay_spec rmDefaultConfig rhDefaultConfig 2 (1 / 2)
    (by norm_num) (by norm_num)
  exact ⟨h.1, h.2.2.2.2.2 (by norm_num [rhDefaultConfig]) (by norm_num [rhDefaultConfig])
    (by norm_num [rhDefaultConfig])⟩

/-- Counterexample to C3 as stated: under the default `RetryHandler`
configuration (`baseDelay = 1000`, `multiplier = 2`, `maxDelay =
30000`), attempt 6 with `Math.random() = 0.9` sleeps 42000 ms, which
exceeds `maxDelay = 30000`. -/
theorem calculate_delay_counterexample :
    rhCalculateDelay rhDefaultConfig 6 (9 / 10) = 42000 ∧
    rhDefaultConfig.maxDelay = 30000 ∧
    ((30000 : ℚ) < ((42000 : ℤ) : ℚ)) := by
  refine ⟨?_, rfl, by norm_num⟩
  unfold rhCalculateDelay rhDefaultConfig
  norm_num

/-! ### Circuit breaker lemmas (C1) -/

theorem recordProviderFailure_failureCount (p : FMProvider) (now : ℤ) :
    (recordProviderFailure p now).failureCount = p.failureCount + 1 := by
  by_cases h : p.maxFailures ≤ p.failureCount + 1 <;> simp [recordProviderFailure, h]

theorem recordProviderFailure_maxFailures (p : FMProvider) (now : ℤ) :
    (recordProviderFailure p now).maxFailures = p.maxFailures := by
  by_cases h : p.maxFailures ≤ p.failureCount + 1 <;> simp [recordProviderFailure, h]

theorem recordFailures_failureCount (times : List ℤ) :
    ∀ p : FMProvider, (recordFailures p times).failureCount = p.failureCount + times.length := by
  induction times with
  | nil => intro p; simp [recordFailures]
  | cons t ts ih =>
    intro p
    simp only [recordFailures, List.foldl_cons] at ih ⊢
    rw [ih, recordProviderFailure_failureCount]
    simp
    omega

theorem recordFailures_maxFailures (times : List ℤ) :
    ∀ p : FMProvider, (recordFailures p times).maxFailures = p.maxFailures := by
  induction times with
  | nil => intro p; simp [recordFailures]
  | cons t ts ih =>
    intro p
    simp only [recordFailures, List.foldl_cons] at ih ⊢
    rw [ih, recordProviderFailure_maxFailures]

theorem recordFailures_concat (p : FMProvider) (ts : List ℤ) (t : ℤ) :
    recordFailures p (ts ++ [t]) = recordProviderFailure (recordFailures p ts) t := by
  simp [recordFailures, List.foldl_append]

/-- C1 (amended): after `maxFailures` consecutive recorded failures the
provider record reports unavailable; a query before the cooldown
elapses leaves the record unchanged (so it is still reported
unavailable); a query after the cooldown immediately marks the provider
available again and resets `failureCount` to zero — no successful
attempt is required — and a recorded success also resets the record. -/
theorem circuit_breaker_spec :
    (∀ (p : FMProvider) (times : List ℤ), times ≠ [] →
       p.maxFailures ≤ p.failureCount + times.length →
       (recordFailures p times).isAvailable = false ∧
       (getProviderStatusEntry (recordFailures p times)).1 = false) ∧
    (∀ (cb now : ℤ) (p : FMProvider) (t : ℤ), p.isAvailable = false →
       p.lastFailure = some t → now - t ≤ cb →
       circuitBreakerRefresh cb now p = p) ∧
    (∀ (cb now : ℤ) (p : FMProvider) (t : ℤ), p.isAvailable = false →
       p.lastFailure = some t → cb < now - t →
       (circuitBreakerRefresh cb now p).isAvailable = true ∧
       (circuitBreakerRefresh cb now p).failureCount = 0) ∧
    (∀ p : FMProvider, (resetProviderFailures p).failureCount = 0 ∧
       (resetProviderFailures p).isAvailable = true) := by
  refine ⟨?_, ?_, ?_, ?_⟩
  · intro p times hne hmax
    rcases (List.eq_nil_or_concat times) with h | ⟨ts, t, rfl⟩
    · exact absurd h hne
    · rw [List.concat_eq_append] at hmax ⊢
      have hcount := recordFailures_failureCount ts p
      have hmaxf := recordFailures_maxFailures ts p
      rw [recordFailures_concat]
      have hcond : (recordFailures p ts).maxFailures ≤ (recordFailures p ts).failureCount + 1 := by
        rw [hcount, hmaxf]
        simp at hmax
        omega
      constructor
      · unfold recordProviderFailure
        rw [if_pos hcond]
      · unfold getProviderStatusEntry recordProviderFailure
        rw [if_pos hcond]
  · intro cb now p t hav hlf hle
    unfold circuitBreakerRefresh
    rw [hav, hlf]
    simp only [Bool.false_eq_true, if_false]
    rw [if_neg (by omega)]
  · intro cb now p t hav hlf hlt
    unfold circuitBreakerRefresh
    rw [hav, hlf]
    simp only [Bool.false_eq_true, if_false]
    rw [if_pos hlt]
    exact ⟨rfl, rfl⟩
  · intro p
    exact ⟨rfl, rfl⟩

/-- A provider that has just failed three times (times 0, 1, 2 ms). -/
def failedThrice : FMProvider := recordFailures (freshProvider "OpenRouter" 1) [0, 1, 2]

/-- Witness for C1 (amended). -/
theorem circuit_breaker_spec_witness :
    (recordFailures (freshProvider "OpenRouter" 1) [0, 1, 2]).isAvailable = false ∧
    circuitBreakerRefresh 300000 200000 failedThrice = failedThrice ∧
    (circuitBreakerRefresh 300000 300003 failedThrice).isAvailable = true := by
  have h := circuit_breaker_spec
  exact ⟨(h.1 (freshProvider "OpenRouter" 1) [0, 1, 2] (by decide) (by decide)).1,
         h.2.1 300000 200000 failedThrice 2 (by decide) (by decide) (by decide),
         (h.2.2.1 300000 300003 failedThrice 2 (by decide) (by decide) (by decide)).1⟩

/-- Counterexample to C1 as stated: a provider disabled by three
failures (last one at t = 2 ms) has its consecutive-failure counter
reset to zero by a mere availability query at t = 300003 ms — right
after the 300000 ms cooldown — although no probe or attempt has
succeeded. -/
theorem circuit_breaker_counterexample :
    failedThrice.isAvailable = false ∧
    failedThrice.failureCount = 3 ∧
    (circuitBreakerRefresh 300000 300003 failedThrice).failureCount = 0 ∧
    (circuitBreakerRefresh 300000 300003 failedThrice).isAvailable = true := by
  decide

/-! ### Retryability predicates (C4) -/

/-- C4 (amended): `FallbackManager.isRetryableError` classifies 401 /
"api key" / "unauthorized" errors and quota messages (without "rate
limit") as non-retryable, and — outside those guards — missing status,
5xx, 429 and timeout/network/connection messages as retryable, every
other status (including 403-class errors) as non-retryable; the default
`RetryHandler._isRetryableError` accepts exactly the status codes 429,
502, 503, 504 and otherwise, for a non-empty message, only the
configured message substrings, so plain network/timeout errors and
other 5xx such as 500 are non-retryable there. -/
theorem retryability_default_predicates :
    (∀ (status : Option Nat) (message : String),
       (status = some 401 ∨ strIncludes (strToLower message) "api key" = true ∨
        strIncludes (strToLower message) "unauthorized" = true) →
       fmIsRetryableError status message = false) ∧
    (∀ (status : Option Nat) (message : String),
       strIncludes (strToLower message) "quota" = true →
       strIncludes (strToLower message) "rate limit" = false →
       fmIsRetryableError status message = false) ∧
    (∀ (status : Option Nat) (message : String),
       ¬(status = some 401 ∨ strIncludes (strToLower message) "api key" = true ∨
         strIncludes (strToLower message) "unauthorized" = true) →
       ¬(strIncludes (strToLower message) "quota" = true ∧
         strIncludes (strToLower message) "rate limit" = false) →
       (status = none ∨ status = some 0 ∨ (∃ s, status = some s ∧ 500 ≤ s) ∨
        status = some 429 ∨
        strIncludes (strToLower message) "timeout" = true ∨
        strIncludes (strToLower message) "network" = true ∨
        strIncludes (strToLower message) "connection" = true) →
       fmIsRetryableError status message = true) ∧
    (∀ (s : Nat) (message : String), s ≠ 0 → s < 500 → s ≠ 429 →
       strIncludes (strToLower message) "timeout" = false →
       strIncludes (strToLower message) "network" = false →
       strIncludes (strToLower message) "connection" = false →
       fmIsRetryableError (some s) message = false) ∧
    (∀ (s : Nat) (msg : Option String) (rs : Option Nat),
       s ∈ rhDefaultConfig.retryableStatusCodes → s ≠ 0 →
       rhIsRetryableError rhDefaultConfig ⟨some s, msg, rs⟩ = true) ∧
    (∀ (sc : Option Nat) (m : String) (rs : Option Nat),
       (∀ s, sc = some s → s = 0 ∨ s ∉ rhDefaultConfig.retryableStatusCodes) →
       m ≠ "" →
       (∀ pat ∈ rhDefaultConfig.retryableErrorMessages,
         strIncludes (strToLower m) pat = false) →
       rhIsRetryableError rhDefaultConfig ⟨sc, some m, rs⟩ = false) := by
  refine ⟨?_, ?_, ?_, ?_, ?_, ?_⟩
  · intro status message h
    unfold fmIsRetryableError
    rw [if_pos]
    rcases h with h | h | h
    · simp [h]
    · simp [h]
    · simp [h]
  · intro status message hq hrl
    unfold fmIsRetryableError
    by_cases h1 : (status == some 401 || strIncludes (strToLower message) "api key" ||
        strIncludes (strToLower message) "unauthorized") = true
    · rw [if_pos h1]
    · rw [if_neg h1, if_pos (by simp [hq, hrl])]
  · intro status message h1 h2 h3
    unfold fmIsRetryableError
    rw [if_neg (by simp only [Bool.or_eq_true, beq_iff_eq]; tauto),
        if_neg (by simp only [Bool.and_eq_true, Bool.not_eq_true']; exact h2)]
    rcases h3 with h | h | ⟨s, rfl, hs⟩ | h | h | h | h
    · subst h; simp
    · subst h; simp
    · simp [hs]
    · subst h; simp
    · simp [h]
    · simp [h]
    · simp [h]
  · intro s message hs0 hs500 hs429 ht hn hc
    unfold fmIsRetryableError
    by_cases h1 : ((some s : Option Nat) == some 401 ||
        strIncludes (strToLower message) "api key" ||
        strIncludes (strToLower message) "unauthorized") = true
    · rw [if_pos h1]
    · rw [if_neg h1]
      by_cases h2 : (strIncludes (strToLower message) "quota" &&
          !strIncludes (strToLower message) "rate limit") = true
      · rw [if_pos h2]
      · rw [if_neg h2]
        simp [ht, hn, hc, hs0]
        omega
  · intro s msg rs hmem hs0
    unfold rhIsRetryableError
    rw [if_pos]
    simp [hs0, List.contains]
    exact hmem
  · intro sc m rs hsc hm hpats
    unfold rhIsRetryableError
    rw [if_neg]
    · simp only
      rw [if_neg hm]
      rw [List.any_eq_false]
      intro pat hpat
      simp [hpats pat hpat]
    · cases sc with
      | none => simp
      | some s =>
        rcases hsc s rfl with h | h
        · simp [h]
        · simp [List.contains, h]

/-- Witness for C4 (amended). -/
theorem retryability_default_predicates_witness :
    fmIsRetryableError (some 401) "invalid api key" = false ∧
    fmIsRetryableError (some 400) "quota exceeded for this key" = false ∧
    fmIsRetryableError (some 502) "bad gateway" = true ∧
    fmIsRetryableError (some 403) "forbidden" = false ∧
    rhIsRetryableError rhDefaultConfig ⟨some 429, some "too many requests", none⟩ = true ∧
    rhIsRetryableError rhDefaultConfig ⟨some 401, some "unauthorized", none⟩ = false := by
  have h := retryability_default_predicates
  refine ⟨h.1 (some 401) "invalid api key" (Or.inl rfl),
          h.2.1 (some 400) "quota exceeded for this key" (by decide) (by decide),
          h.2.2.1 (some 502) "bad gateway" (by decide) (by decide)
            (Or.inr (Or.inr (Or.inl ⟨502, rfl, by omega⟩))),
          h.2.2.2.1 403 "forbidden" (by decide) (by decide) (by decide) (by decide)
            (by decide) (by decide),
          h.2.2.2.2.1 429 (some "too many requests") none (by decide) (by decide),
          h.2.2.2.2.2 (some 401) "unauthorized" none ?_ (by decide) ?_⟩
  · intro s hs
    injection hs with hs
    subst hs
    right
    decide
  · intro pat hpat
    fin_cases hpat <;> decide

/-- Counterexample to C4 as stated: an HTTP 500 error whose message
even says "network timeout error" — a 5xx that nothing explicitly
excludes, and a network/timeout error — is classified non-retryable by
the default `RetryHandler` predicate. -/
theorem retryability_counterexample :
    rhIsRetryableError rhDefaultConfig ⟨some 500, some "network timeout error", none⟩ = false ∧
    500 ≤ 500 ∧
    strIncludes (strToLower "network timeout error") "timeout" = true ∧
    strIncludes (strToLower "network timeout error") "network" = true := by
  refine ⟨by decide, by omega, by decide, by decide⟩

/-! ### Fallback selector lemmas (C5) -/

theorem sorted_fallback_models :
    List.Sorted (fun a b : FallbackModel => a.priority ≤ b.priority) FALLBACK_MODELS := by
  decide

theorem availableFallbacks_eq_filter (fm fp : String) :
    availableFallbacks fm fp =
      FALLBACK_MODELS.filter (fun fb => !(fb.model == fm && fb.provider == fp)) := by
  unfold availableFallbacks
  exact List.Sorted.insertionSort_eq
    (List.Sorted.filter (fun fb => !(fb.model == fm && fb.provider == fp))
      sorted_fallback_models)

theorem availableFallbacks_sorted (fm fp : String) :
    List.Sorted (fun a b : FallbackModel => a.priority ≤ b.priority)
      (availableFallbacks fm fp) := by
  rw [availableFallbacks_eq_filter]
  exact List.Sorted.filter _ sorted_fallback_models

theorem selectFallback_eq_some (pl : List String) (health : String → Except Unit Bool)
    (ma : String → String → Bool) :
    ∀ (cands : List FallbackModel) (m pv : String),
      selectFallback pl health ma cands = some (m, pv) →
      ∃ pre fb post, cands = pre ++ fb :: post ∧
        fallbackViable pl health ma fb = true ∧
        (∀ g ∈ pre, fallbackViable pl health ma g = false) ∧
        fb.model = m ∧ fb.provider = pv := by
  intro cands
  induction cands with
  | nil => intro m pv h; simp [selectFallback] at h
  | cons fb rest ih =>
    intro m pv h
    unfold selectFallback at h
    by_cases hv : fallbackViable pl health ma fb = true
    · rw [if_pos hv] at h
      obtain ⟨hm, hpv⟩ : fb.model = m ∧ fb.provider = pv := by
        injection h with h
        exact ⟨congrArg Prod.fst h, congrArg Prod.snd h⟩
      exact ⟨[], fb, rest, rfl, hv, by simp, hm, hpv⟩
    · rw [if_neg hv] at h
      obtain ⟨pre, g, post, hc, hgv, hpre, hm, hpv⟩ := ih m pv h
      refine ⟨fb :: pre, g, post, by simp [hc], hgv, ?_, hm, hpv⟩
      intro x hx
      rcases List.mem_cons.mp hx with rfl | hx
      · simpa using hv
      · exact hpre x hx

theorem selectFallback_eq_none (pl : List String) (health : String → Except Unit Bool)
    (ma : String → String → Bool) :
    ∀ cands : List FallbackModel,
      selectFallback pl health ma cands = none ↔
        ∀ fb ∈ cands, fallbackViable pl health ma fb = false := by
  intro cands
  induction cands with
  | nil => simp [selectFallback]
  | cons fb rest ih =>
    unfold selectFallback
    by_cases hv : fallbackViable pl health ma fb = true
    · rw [if_pos hv]
      simp [hv]
    · rw [if_neg hv]
      rw [ih]
      constructor
      · intro h x hx
        rcases List.mem_cons.mp hx with rfl | hx
        · simpa using hv
        · exact h x hx
      · intro h x hx
        exact h x (List.mem_cons_of_mem _ hx)

/-- C5 (amended): `getNextFallbackModel` never re-selects the failed
(model, provider) pair from the fallback candidate list and returns the
first list candidate, in ascending priority order, whose provider is
known, passes the health check and lists the model; when the list is
exhausted it returns the designated default (model, provider) pair if
and only if the default provider passes the health check — even when
that default pair equals the failed pair — and otherwise `none`. -/
theorem fallback_selector_spec (pl : List String) (health : String → Except Unit Bool)
    (ma : String → String → Bool) (dm dp fm fp : String) :
    (∀ m pv, selectFallback pl health ma (availableFallbacks fm fp) = some (m, pv) →
       getNextFallbackModel pl health ma dm dp fm fp = some (m, pv) ∧
       ¬(m = fm ∧ pv = fp) ∧
       (∃ pre fb post, availableFallbacks fm fp = pre ++ fb :: post ∧
          fb.model = m ∧ fb.provider = pv ∧
          fallbackViable pl health ma fb = true ∧
          (∀ g ∈ pre, fallbackViable pl health ma g = false ∧ g.priority ≤ fb.priority))) ∧
    (selectFallback pl health ma (availableFallbacks fm fp) = none →
       getNextFallbackModel pl health ma dm dp fm fp =
         (if providerHealthOk health dp then some (dm, dp) else none)) ∧
    (selectFallback pl health ma (availableFallbacks fm fp) = none ↔
       ∀ fb ∈ availableFallbacks fm fp, fallbackViable pl health ma fb = false) := by
  refine ⟨?_, ?_, selectFallback_eq_none pl health ma _⟩
  · intro m pv hsel
    obtain ⟨pre, fb, post, hc, hv, hpre, hm, hpv⟩ :=
      selectFallback_eq_some pl health ma _ m pv hsel
    refine ⟨by unfold getNextFallbackModel; rw [hsel], ?_, pre, fb, post, hc, hm, hpv, hv, ?_⟩
    · have hmem : fb ∈ availableFallbacks fm fp := by
        rw [hc]
        exact List.mem_append_right _ (List.mem_cons_self _ _)
      rw [availableFallbacks_eq_filter] at hmem
      have := (List.mem_filter.mp hmem).2
      simp only [Bool.not_eq_true', Bool.and_eq_false_iff, beq_eq_false_iff_ne] at this
      rintro ⟨rfl, rfl⟩
      rw [hm, hpv] at this
      tauto
    · intro g hg
      refine ⟨hpre g hg, ?_⟩
      have hsorted := availableFallbacks_sorted fm fp
      rw [hc] at hsorted
      have := (List.pairwise_append.mp hsorted).2.2
      exact this g hg fb (List.mem_cons_self _ _)
  · intro hsel
    unfold getNextFallbackModel
    rw [hsel]

/-- Witness for C5 (amended): with every provider healthy and every
model listed, failing the priority-1 pair selects the priority-2 pair,
which differs from the failed one. -/
theorem fallback_selector_spec_witness :
    getNextFallbackModel allProvidersList (fun _ => .ok true) (fun _ _ => true) "d" "D"
        "claude-3-5-sonnet-latest" "Anthropic" =
      some ("anthropic/claude-3.5-sonnet", "OpenRouter") ∧
    ¬("anthropic/claude-3.5-sonnet" = "claude-3-5-sonnet-latest" ∧
      "OpenRouter" = "Anthropic") := by
  have h := fallback_selector_spec allProvidersList (fun _ => .ok true) (fun _ _ => true)
    "d" "D" "claude-3-5-sonnet-latest" "Anthropic"
  have h1 := h.1 "anthropic/claude-3.5-sonnet" "OpenRouter" (by decide)
  exact ⟨h1.1, h1.2.1⟩

/-- Counterexample to C5 as stated: when the failed pair is the
designated default pair, every list candidate fails its model check,
and the default provider is healthy, `getNextFallbackModel` returns
exactly the failed (model, provider) pair. -/
theorem fallback_selector_counterexample :
    getNextFallbackModel allProvidersList (fun _ => .ok true) (fun _ _ => false)
      "gpt-4o-mini" "OpenAI" "gpt-4o-mini" "OpenAI" = some ("gpt-4o-mini", "OpenAI") := by
  decide

/-! ### Degradation chain lemmas (C6) -/

theorem getCache_fresh (cache : List (String × CacheEntry)) (now : ℤ) (key : String)
    (e : CacheEntry) (h : cache.lookup key = some e)
    (hfresh : now - e.timestamp ≤ e.ttl) : (getCache cache now key).1 = some e.data := by
  unfold getCache
  rw [h]
  have hc : ¬(e.ttl < now - e.timestamp) := by omega
  simp [hc]

/-- C6 (amended): entry conditions and the degradation chain.  An
unavailable service, or a failing primary, reaches `handleFallback`;
there, in order with first success winning: a non-expired cache entry
whose stored value is truthy (the `if (cached)` truthiness test skips
falsy values such as 0), then a provided fallback operation (its own
failure swallowed), then a provided default value other than
`undefined`, then throwing the original error when truthy or a
synthesized service-unavailable error. -/
theorem degradation_chain_spec (sn : String) (services : List (String × ServiceStatus))
    (cache : List (String × CacheEntry)) (now : ℤ) (primary : Except JSVal JSVal)
    (opts : FallbackOptions) :
    (isServiceAvailable services sn = false →
       executeWithDegradation sn services cache now primary opts =
         ⟨(handleFallback sn cache now opts none).1,
          (handleFallback sn cache now opts none).2, cache, services⟩) ∧
    (∀ e, isServiceAvailable services sn = true → primary = .error e →
       (executeWithDegradation sn services cache now primary opts).result =
         (handleFallback sn cache now opts (some e)).1 ∧
       (executeWithDegradation sn services cache now primary opts).fallbackInvoked =
         (handleFallback sn cache now opts (some e)).2) ∧
    (∀ oe k entry, opts.useCache = true → opts.cacheKey = some k → k ≠ "" →
       cache.lookup k = some entry → now - entry.timestamp ≤ entry.ttl →
       entry.data.truthy = true →
       handleFallback sn cache now opts oe = (.ok entry.data, false)) ∧
    (∀ oe w, (∀ v, cacheHitVal cache now opts = some v → v.truthy = false) →
       opts.fallbackOperation = some (.ok w) →
       handleFallback sn cache now opts oe = (.ok w, true)) ∧
    (∀ oe d, (∀ v, cacheHitVal cache now opts = some v → v.truthy = false) →
       (opts.fallbackOperation = none ∨ ∃ err, opts.fallbackOperation = some (.error err)) →
       opts.cachedResult = some d → d ≠ .undef →
       (handleFallback sn cache now opts oe).1 = .ok d) ∧
    (∀ oe, (∀ v, cacheHitVal cache now opts = some v → v.truthy = false) →
       (opts.fallbackOperation = none ∨ ∃ err, opts.fallbackOperation = some (.error err)) →
       (opts.cachedResult = none ∨ opts.cachedResult = some .undef) →
       (handleFallback sn cache now opts oe).1 =
         (match oe with
          | some e =>
            if e.truthy then .error e
            else .error (.errObj ("Service " ++ sn ++ " is unavailable"))
          | none => .error (.errObj ("Service " ++ sn ++ " is unavailable")))) := by
  refine ⟨?_, ?_, ?_, ?_, ?_, ?_⟩
  · intro h
    unfold executeWithDegradation
    rw [h]
    simp
  · intro e h hp
    subst hp
    unfold executeWithDegradation
    rw [h]
    simp
  · intro oe k entry huse hkey hk hlk hfresh htr
    have hch : cacheHitVal cache now opts = some entry.data := by
      unfold cacheHitVal
      rw [huse, hkey]
      simp [cacheKeyTruthy, hk]
      simpa using getCache_fresh cache now k entry hlk hfresh
    unfold handleFallback
    rw [hch]
    simp [htr]
  · intro oe w hcache hfo
    unfold handleFallback
    cases hch : cacheHitVal cache now opts with
    | none => simp [hfo]
    | some v =>
      have hv := hcache v hch
      simp [hv, hfo]
  · intro oe d hcache hfo hcr hd
    unfold handleFallback
    have hbeq : (d == JSVal.undef) = false := by
      simp [hd]
    rcases hfo with hfo | ⟨err, hfo⟩ <;>
      (cases hch : cacheHitVal cache now opts with
       | none => simp [hfo, hcr, hbeq]
       | some v =>
         have hv := hcache v hch
         simp [hv, hfo, hcr, hbeq])
  · intro oe hcache hfo hcr
    unfold handleFallback
    rcases hfo with hfo | ⟨err, hfo⟩ <;> rcases hcr with hcr | hcr <;>
      (cases hch : cacheHitVal cache now opts with
       | none => cases oe <;> simp [hfo, hcr]
       | some v =>
         have hv := hcache v hch
         cases oe <;> simp [hv, hfo, hcr])

/-- Witness for C6 (amended): the claim's scenario — service marked
unavailable, truthy value cached 100 s ago with ttl = 300 s — returns
the cached value without invoking the fallback operation. -/
theorem degradation_chain_spec_witness :
    executeWithDegradation "llm" [("llm", ⟨"llm", false, 0, none⟩)]
        [("k", ⟨.num 7, 900000, 300000⟩)] 1000000 (.error (.errObj "boom"))
        ⟨some (.ok (.num 9)), none, true, some "k", none⟩ =
      ⟨.ok (.num 7), false, [("k", ⟨.num 7, 900000, 300000⟩)],
       [("llm", ⟨"llm", false, 0, none⟩)]⟩ := by
  have h := degradation_chain_spec "llm" [("llm", ⟨"llm", false, 0, none⟩)]
    [("k", ⟨.num 7, 900000, 300000⟩)] 1000000 (.error (.errObj "boom"))
    ⟨some (.ok (.num 9)), none, true, some "k", none⟩
  have h1 := h.1 (by decide)
  have h3 := h.2.2.1 none "k" ⟨.num 7, 900000, 300000⟩ rfl rfl (by decide) (by decide)
    (by decide) (by decide)
  rw [h1, h3]

/-- Counterexample to C6 as stated: with the service unavailable and a
non-expired cache entry holding the falsy value 0 (stored 100 s ago,
ttl 300 s), the chain skips the cache entry and invokes (and returns)
the fallback operation instead of the cached value. -/
theorem degradation_chain_counterexample :
    (executeWithDegradation "llm" [("llm", ⟨"llm", false, 0, none⟩)]
        [("k", ⟨.num 0, 900000, 300000⟩)] 1000000 (.error (.errObj "boom"))
        ⟨some (.ok (.num 9)), none, true, some "k", none⟩).result = .ok (.num 9) ∧
    (executeWithDegradation "llm" [("llm", ⟨"llm", false, 0, none⟩)]
        [("k", ⟨.num 0, 900000, 300000⟩)] 1000000 (.error (.errObj "boom"))
        ⟨some (.ok (.num 9)), none, true, some "k", none⟩).fallbackInvoked = true ∧
    ([("k", (⟨.num 0, 900000, 300000⟩ : CacheEntry))].lookup "k" =
      some (⟨.num 0, 900000, 300000⟩ : CacheEntry)) ∧
    (1000000 : ℤ) - 900000 ≤ 300000 := by
  refine ⟨by decide, by decide, by decide, by decide⟩

/-! ### Association list lemmas -/

theorem lookup_mapDelete (m : List (String × β)) (k : String) :
    (mapDelete m k).lookup k = none := by
  induction m with
  | nil => rfl
  | cons a t ih =>
    obtain ⟨a1, a2⟩ := a
    by_cases h : a1 = k
    · simpa [mapDelete, List.filter_cons, h] using ih
    · have hb : (k == a1) = false := beq_eq_false_iff_ne.mpr (Ne.symm h)
      simp only [mapDelete, List.filter_cons] at ih ⊢
      simp [List.lookup, hb, ih, h]

theorem lookup_mapSet_self (m : List (String × β)) (k : String) (v : β) :
    (mapSet m k v).lookup k = some v := by
  simp [mapSet, List.lookup]

/-! ### Terminal error message lemmas (C7) -/

theorem executeWithFallbackLoop_error_shape (maxRetries : Nat)
    (op : String → Except ApiError α) :
    ∀ (provs : List FMProvider) (attemptCount : Nat) (lastErr : Option ApiError)
      (msg : String),
      (executeWithFallbackLoop maxRetries op provs attemptCount lastErr).1 = .error msg →
      ∃ le, msg = allProvidersFailedMessage le := by
  intro provs
  induction provs with
  | nil =>
    intro ac lastErr msg h
    refine ⟨lastErr, ?_⟩
    simp [executeWithFallbackLoop] at h
    exact h.symm
  | cons p rest ih =>
    intro ac lastErr msg h
    unfold executeWithFallbackLoop at h
    by_cases hb : maxRetries ≤ ac
    · rw [if_pos hb] at h
      refine ⟨lastErr, ?_⟩
      simp at h
      exact h.symm
    · rw [if_neg hb] at h
      cases hop : op p.name with
      | ok v => rw [hop] at h; simp at h
      | error e =>
        rw [hop] at h
        exact ih (ac + 1) (some e) msg h

/-- C7 (amended): every terminal error surfaced by
`executeWithFallbackInternal` carries the parsed message of the last
underlying error as a substring (or the no-providers message), and the
`streamText` terminal errors carry the last error message; the count of
attempts is not part of these messages. -/
theorem terminal_error_message_spec (maxRetries : Nat) (op : String → Except ApiError α)
    (providers : List FMProvider) :
    (∀ msg, (executeWithFallbackInternal maxRetries op providers).1 = .error msg →
       msg = noProvidersMessage ∨
       ∃ le, msg = allProvidersFailedMessage le ∧
         strIncludes msg (parseErrorMessage le) = true) ∧
    (∀ le, strIncludes (allProvidersFailedMessage le) (parseErrorMessage le) = true) ∧
    (∀ (b : Bool) (m : String), strIncludes (streamTextTerminalMessage b m) m = true) := by
  refine ⟨?_, ?_, ?_⟩
  · intro msg h
    unfold executeWithFallbackInternal at h
    by_cases he : providers.isEmpty
    · rw [if_pos he] at h
      left
      simp at h
      exact h.symm
    · rw [if_neg he] at h
      right
      obtain ⟨le, rfl⟩ := executeWithFallbackLoop_error_shape maxRetries op providers 0 none msg h
      exact ⟨le, rfl, strIncludes_append_right _ _⟩
  · intro le
    exact strIncludes_append_right _ _
  · intro b m
    cases b <;> simpa [streamTextTerminalMessage] using strIncludes_append_right _ m

/-- Three available providers for C7 instances. -/
def threeProviders : List FMProvider :=
  [freshProvider "OpenRouter" 1, freshProvider "OpenAI" 2, freshProvider "Anthropic" 3]

/-- An operation that fails on every provider with message "boom". -/
def boomOp : String → Except ApiError Nat := fun _ => .error (.plainErr (some "boom"))

/-- Witness for C7 (amended). -/
theorem terminal_error_message_spec_witness :
    allProvidersFailedMessage (some (.plainErr (some "boom"))) = noProvidersMessage ∨
    ∃ le, allProvidersFailedMessage (some (.plainErr (some "boom"))) =
        allProvidersFailedMessage le ∧
      strIncludes (allProvidersFailedMessage (some (.plainErr (some "boom"))))
        (parseErrorMessage le) = true :=
  (terminal_error_message_spec 3 boomOp threeProviders).1 _ (by decide)

/-- Counterexample to C7 as stated: a run making 3 attempts surfaces a
terminal message that contains the last error message "boom" but no
digit "3" (no attempt count); the `streamText` terminal message
likewise lacks its attempt count 4. -/
theorem terminal_error_counterexample :
    (executeWithFallbackInternal 3 boomOp threeProviders).2 = 3 ∧
    (executeWithFallbackInternal 3 boomOp threeProviders).1 =
      .error (allProvidersFailedMessage (some (.plainErr (some "boom")))) ∧
    strIncludes (allProvidersFailedMessage (some (.plainErr (some "boom")))) "boom" = true ∧
    strIncludes (allProvidersFailedMessage (some (.plainErr (some "boom")))) "3" = false ∧
    strIncludes (streamTextTerminalMessage false "boom") "4" = false := by
  refine ⟨by decide, by decide, by decide, by decide, by decide⟩

/-! ### Request coalescer (C8) -/

/-- C8: a `coalesce` call whose context key has an in-flight
registration returns the registered promise unchanged without starting
the operation (so both callers share one outcome); a call with an
unregistered key starts the operation and registers its promise; and
settling removes the registration whatever the outcome. -/
theorem request_coalescer_spec :
    (∀ (st : CoalescerState) (k : String) (p : Nat),
       st.activeRequests.lookup k = some p →
       coalesce st (some k) = (p, st, false)) ∧
    (∀ (st : CoalescerState) (k : String),
       st.activeRequests.lookup k = none →
       (coalesce st (some k)).2.2 = true ∧
       (coalesce st (some k)).2.1.activeRequests.lookup k =
         some (coalesce st (some k)).1) ∧
    (∀ (st : CoalescerState) (k : String) (outcome : Except JSVal JSVal),
       (settleRequest st k outcome).activeRequests.lookup k = none) := by
  refine ⟨?_, ?_, ?_⟩
  · intro st k p h
    simp [coalesce, h]
  · intro st k h
    constructor
    · simp [coalesce, h]
    · simp [coalesce, h, List.lookup]
  · intro st k outcome
    exact lookup_mapDelete _ _

/-- Witness for C8. -/
theorem request_coalescer_spec_witness :
    coalesce ⟨[("chat", 7)], 8⟩ (some "chat") = (7, ⟨[("chat", 7)], 8⟩, false) ∧
    (settleRequest ⟨[("chat", 7)], 8⟩ "chat" (.ok (.num 1))).activeRequests.lookup "chat" =
      none :=
  ⟨request_coalescer_spec.1 ⟨[("chat", 7)], 8⟩ "chat" 7 (by decide),
   request_coalescer_spec.2.2 ⟨[("chat", 7)], 8⟩ "chat" (.ok (.num 1))⟩

/-! ### Rate limiter (C9) -/

theorem checkLimit_new (cfg : RateLimitConfig) (store : List (String × RateLimitEntry))
    (key : String) (now : ℤ) (h : store.lookup key = none) :
    checkLimit cfg store key now =
      (⟨true, now + cfg.windowMs, (cfg.maxRequests : ℤ) - 1⟩,
       mapSet store key ⟨1, now + cfg.windowMs⟩) := by
  unfold checkLimit
  rw [h]

theorem checkLimit_expired (cfg : RateLimitConfig) (store : List (String × RateLimitEntry))
    (key : String) (now : ℤ) (entry : RateLimitEntry)
    (h : store.lookup key = some entry) (he : entry.resetTime ≤ now) :
    checkLimit cfg store key now =
      (⟨true, now + cfg.windowMs, (cfg.maxRequests : ℤ) - 1⟩,
       mapSet store key ⟨1, now + cfg.windowMs⟩) := by
  unfold checkLimit
  rw [h]
  simp [he]

theorem checkLimit_incr (cfg : RateLimitConfig) (store : List (String × RateLimitEntry))
    (key : String) (now : ℤ) (entry : RateLimitEntry)
    (h : store.lookup key = some entry) (hn : now < entry.resetTime) :
    checkLimit cfg store key now =
      (⟨decide (entry.count + 1 ≤ cfg.maxRequests), entry.resetTime,
        max 0 ((cfg.maxRequests : ℤ) - (entry.count + 1))⟩,
       mapSet store key ⟨entry.count + 1, entry.resetTime⟩) := by
  unfold checkLimit
  rw [h]
  simp [not_le.mpr hn]

/-- C9: with `maxRequests = 5` and `windowMs = 60000`, six calls for a
fresh key at times within the first call's window are allowed for
requests 1–5 (remaining 4, 3, 2, 1, 0 = max(0, 5 − count)) and the
sixth is rejected with remaining 0 = max(0, 5 − 6) and a reset time in
the future; the first call at or after that reset time starts a new
window with count 1 and is allowed. -/
theorem rate_limiter_window_spec (store : List (String × RateLimitEntry)) (key : String)
    (t1 t2 t3 t4 t5 t6 t7 : ℤ) (h0 : store.lookup key = none)
    (h2 : t2 < t1 + 60000) (h3 : t3 < t1 + 60000) (h4 : t4 < t1 + 60000)
    (h5 : t5 < t1 + 60000) (h6 : t6 < t1 + 60000) (h7 : t1 + 60000 ≤ t7) :
    ∃ s1 s2 s3 s4 s5 s6,
      checkLimit rl5cfg store key t1 = (⟨true, t1 + 60000, 4⟩, s1) ∧
      checkLimit rl5cfg s1 key t2 = (⟨true, t1 + 60000, 3⟩, s2) ∧
      checkLimit rl5cfg s2 key t3 = (⟨true, t1 + 60000, 2⟩, s3) ∧
      checkLimit rl5cfg s3 key t4 = (⟨true, t1 + 60000, 1⟩, s4) ∧
      checkLimit rl5cfg s4 key t5 = (⟨true, t1 + 60000, 0⟩, s5) ∧
      checkLimit rl5cfg s5 key t6 = (⟨false, t1 + 60000, 0⟩, s6) ∧
      t6 < t1 + 60000 ∧
      (checkLimit rl5cfg s6 key t7).1 = ⟨true, t7 + 60000, 4⟩ ∧
      (checkLimit rl5cfg s6 key t7).2.lookup key = some ⟨1, t7 + 60000⟩ := by
  refine ⟨mapSet store key ⟨1, t1 + 60000⟩,
          mapSet (mapSet store key ⟨1, t1 + 60000⟩) key ⟨2, t1 + 60000⟩,
          mapSet (mapSet (mapSet store key ⟨1, t1 + 60000⟩) key ⟨2, t1 + 60000⟩) key
            ⟨3, t1 + 60000⟩,
          mapSet (mapSet (mapSet (mapSet store key ⟨1, t1 + 60000⟩) key ⟨2, t1 + 60000⟩)
            key ⟨3, t1 + 60000⟩) key ⟨4, t1 + 60000⟩,
          mapSet (mapSet (mapSet (mapSet (mapSet store key ⟨1, t1 + 60000⟩) key
            ⟨2, t1 + 60000⟩) key ⟨3, t1 + 60000⟩) key ⟨4, t1 + 60000⟩) key ⟨5, t1 + 60000⟩,
          mapSet (mapSet (mapSet (mapSet (mapSet (mapSet store key ⟨1, t1 + 60000⟩) key
            ⟨2, t1 + 60000⟩) key ⟨3, t1 + 60000⟩) key ⟨4, t1 + 60000⟩) key ⟨5, t1 + 60000⟩)
            key ⟨6, t1 + 60000⟩, ?_, ?_, ?_, ?_, ?_, ?_, h6, ?_, ?_⟩
  · rw [checkLimit_new rl5cfg store key t1 h0]
    norm_num [rl5cfg]
  · rw [checkLimit_incr rl5cfg _ key t2 ⟨1, t1 + 60000⟩ (lookup_mapSet_self _ _ _) h2]
    norm_num [rl5cfg]
  · rw [checkLimit_incr rl5cfg _ key t3 ⟨2, t1 + 60000⟩ (lookup_mapSet_self _ _ _) h3]
    norm_num [rl5cfg]
  · rw [checkLimit_incr rl5cfg _ key t4 ⟨3, t1 + 60000⟩ (lookup_mapSet_self _ _ _) h4]
    norm_num [rl5cfg]
  · rw [checkLimit_incr rl5cfg _ key t5 ⟨4, t1 + 60000⟩ (lookup_mapSet_self _ _ _) h5]
    norm_num [rl5cfg]
  · rw [checkLimit_incr rl5cfg _ key t6 ⟨5, t1 + 60000⟩ (lookup_mapSet_self _ _ _) h6]
    norm_num [rl5cfg]
  · rw [checkLimit_expired rl5cfg _ key t7 ⟨6, t1 + 60000⟩ (lookup_mapSet_self _ _ _) h7]
    norm_num [rl5cfg]
  · rw [checkLimit_expired rl5cfg _ key t7 ⟨6, t1 + 60000⟩ (lookup_mapSet_self _ _ _) h7]
    exact lookup_mapSet_self _ _ _

/-- Witness for C9: calls at 0, 1, 2, 3, 4, 5 ms and then at 60000 ms
for an empty store. -/
theorem rate_limiter_window_spec_witness :
    ∃ s1 s2 s3 s4 s5 s6,
      checkLimit rl5cfg [] "k" 0 = (⟨true, 0 + 60000, 4⟩, s1) ∧
      checkLimit rl5cfg s1 "k" 1 = (⟨true, 0 + 60000, 3⟩, s2) ∧
      checkLimit rl5cfg s2 "k" 2 = (⟨true, 0 + 60000, 2⟩, s3) ∧
      checkLimit rl5cfg s3 "k" 3 = (⟨true, 0 + 60000, 1⟩, s4) ∧
      checkLimit rl5cfg s4 "k" 4 = (⟨true, 0 + 60000, 0⟩, s5) ∧
      checkLimit rl5cfg s5 "k" 5 = (⟨false, 0 + 60000, 0⟩, s6) ∧
      (5 : ℤ) < 0 + 60000 ∧
      (checkLimit rl5cfg s6 "k" 60000).1 = ⟨true, 60000 + 60000, 4⟩ ∧
      (checkLimit rl5cfg s6 "k" 60000).2.lookup "k" = some ⟨1, 60000 + 60000⟩ :=
  rate_limiter_window_spec [] "k" 0 1 2 3 4 5 60000 rfl (by norm_num) (by norm_num)
    (by norm_num) (by norm_num) (by norm_num) (by norm_num)

end Snapweb
